import Mathlib

/-!
Verification development for the Seastar OpenSSL TLS session layer
(`src/net/ossl.cc`).  The definitions below are a shallow embedding of the
control flow of `tls::session` and `tls::certificate_credentials::impl`:
pure Lean functions mirror the branch structure of the C++ member
functions, with bytes as naturals and the OpenSSL engine state abstracted
to the data the branches inspect.
-/

namespace Ossl

/-- Bytes are modelled as naturals (their values only flow through queues,
they are never inspected by the session driver). -/
abbrev Byte := Nat

/-- Session type (`session_type` in `tls-impl.hh`): CLIENT or SERVER. -/
inductive SessionType where
  | client
  | server
deriving DecidableEq, Repr

/-- Client-authentication policy (`tls::client_auth`): NONE, REQUEST or
REQUIRE. -/
inductive ClientAuth where
  | none
  | request
  | require
deriving DecidableEq, Repr

/-- Kinds of exceptions stored in `session::_error` (`std::exception_ptr`):
`ossl_error` (a `std::system_error` in the OpenSSL category),
`std::system_error(errno, std::system_category())`, `std::runtime_error`,
and `tls::verification_error`. -/
inductive ErrorKind where
  | osslError (msg : String)
  | systemError (errno : Nat)
  | runtimeError (msg : String)
  | verificationError (msg : String)
deriving DecidableEq, Repr

/-- Linux errno for a broken pipe, thrown by `session::put` when
`_shutdown` is set. -/
def EPIPE : Nat := 32

/-- Linux errno for a transport endpoint that is not connected, thrown by
`get_distinguished_name` / `get_alt_name_information` when `_shutdown` is
set, and by `do_handshake` on EOF. -/
def ENOTCONN : Nat := 107

/-- The session state the public entry points of `tls::session` inspect
before deciding how to proceed: `_error`, `_eof`, `_shutdown`, the session
type, the credentials' client-auth mode and `SSL_is_init_finished`
(`connected()`), abstracted to a boolean. -/
structure Session where
  type : SessionType
  clientAuth : ClientAuth
  error : Option ErrorKind
  eof : Bool
  shutdown : Bool
  connected : Bool
deriving DecidableEq, Repr

/-- Outcome of the guard sequence at the head of a public call on
`tls::session`: fail with an exception, immediately return an empty
buffer, fall through to the engine-driving path (handshake / `do_get` /
`do_put` / DN extraction), or go straight to `_out.flush()` on the
transport sink. Only the last two interact with the engine or the
transport. -/
inductive CallOutcome where
  | fails (e : ErrorKind)
  | returnsEmpty
  | proceedsToEngine
  | flushesTransport
deriving DecidableEq, Repr

/-- Entry dispatch of `session::get` (ossl.cc lines 1122-1140): a stored
`_error` is rethrown first; then `_shutdown || eof()` yields an empty
buffer; otherwise the call proceeds to handshake / `do_get`. -/
def get_entry (s : Session) : CallOutcome :=
  match s.error with
  | some e => .fails e
  | none =>
    if s.shutdown || s.eof then .returnsEmpty
    else .proceedsToEngine

/-- Entry dispatch of `session::put` (ossl.cc lines 850-868): a stored
`_error` is rethrown first; then `_shutdown` yields
`std::system_error(EPIPE)`; otherwise the call proceeds to handshake /
`do_put`. -/
def put_entry (s : Session) : CallOutcome :=
  match s.error with
  | some e => .fails e
  | none =>
    if s.shutdown then .fails (.systemError EPIPE)
    else .proceedsToEngine

/-- Entry dispatch of `session::flush` (ossl.cc lines 1346-1349): the body
is only `with_semaphore(_out_sem, 1, [this] \x7b return _out.flush(); \x7d)`;
no session flag is consulted. -/
def flush_entry (_s : Session) : CallOutcome :=
  .flushesTransport

/-- Entry dispatch of `session::get_distinguished_name` (ossl.cc lines
1355-1371): `_error` is rethrown first; then `_shutdown` yields
`std::system_error(ENOTCONN)`; otherwise the call proceeds (handshake when
not connected, DN extraction when connected). -/
def get_distinguished_name_entry (s : Session) : CallOutcome :=
  match s.error with
  | some e => .fails e
  | none =>
    if s.shutdown then .fails (.systemError ENOTCONN)
    else .proceedsToEngine

/-- Entry dispatch of `session::get_alt_name_information` (ossl.cc lines
1373-1400): same guard sequence as `get_distinguished_name`. -/
def get_alt_name_information_entry (s : Session) : CallOutcome :=
  match s.error with
  | some e => .fails e
  | none =>
    if s.shutdown then .fails (.systemError ENOTCONN)
    else .proceedsToEngine

/-- Transport operations the session performs: `pull` is `_in.get()`
(inside `wait_for_input`), `push` is `_out.put(...)` (inside
`perform_push`). -/
inductive IOEvent where
  | pull
  | push
deriving DecidableEq, Repr

/-- One `session::get` call, observed at the granularity the embedding is
faithful at: on the two fast paths (`_error` rethrow, `_shutdown || eof()`
empty buffer) `get` returns a ready/exceptional future without touching
the transport or the engine and without mutating the session, so the
outcome, an empty event trace and the unchanged state are returned.  On
the engine-driving path the next state depends on the crypto engine and
the peer, which this fast-path model does not track, so `none` is
returned for the state. -/
def get_step (s : Session) : CallOutcome × List IOEvent × Option Session :=
  match get_entry s with
  | .fails e => (.fails e, [], some s)
  | .returnsEmpty => (.returnsEmpty, [], some s)
  | o => (o, [], none)

/-- Repeated `get` calls: collect each call's outcome and events,
threading the state; stops tracking (`none`) if any call enters the
engine-driving path. -/
def get_loop : Nat → Session → Option (List (CallOutcome × List IOEvent) × Session)
  | 0, s => some ([], s)
  | n + 1, s =>
    match get_step s with
    | (o, evs, some s') =>
      match get_loop n s' with
      | some (rest, sEnd) => some ((o, evs) :: rest, sEnd)
      | none => none
    | (_, _, none) => none

/-- Success value of `SSL_get_verify_result` (`X509_V_OK`). -/
def X509_V_OK : Nat := 0

/-- Subject and issuer distinguished names (`tls::session_dn`). -/
structure SessionDn where
  subject : String
  issuer : String
deriving DecidableEq, Repr

/-- Inputs `session::verify` inspects: the numeric result of
`SSL_get_verify_result` and its `X509_verify_cert_error_string` rendering,
whether `SSL_get0_peer_certificate` returns a certificate, the DN
information extractable from the credentials' cached last certificate
(`extract_dn_information`), and whether the credentials carry a
`_dn_callback`. -/
structure VerifyCtx where
  verifyResult : Nat
  verifyResultStr : String
  peerCertPresented : Bool
  lastCertDn : Option SessionDn
  hasDnCallback : Bool
deriving DecidableEq, Repr

/-- Result of `session::verify`: normal return (carrying the DN-callback
invocation, when one happened) or a thrown exception. -/
inductive VerifyOutcome where
  | ok (dnCallbackInvoked : Option (SessionType × String × String))
  | throws (e : ErrorKind)
deriving DecidableEq, Repr

/-- Shallow embedding of `session::verify` (ossl.cc lines 1215-1254).
A non-OK verification result throws `verification_error`, with the DNs in
the message when the cached peer certificate yields them.  An OK result
with no peer certificate presented throws
`verification_error("no certificate presented by peer")` exactly when the
session is a server whose client-auth policy is REQUIRE, and returns
normally (before reaching the DN callback) otherwise.  An OK result with
a certificate invokes the DN callback when one is configured. -/
def verify (s : Session) (c : VerifyCtx) : VerifyOutcome :=
  if c.verifyResult ≠ X509_V_OK then
    match c.lastCertDn with
    | some dn =>
      .throws (.verificationError
        (c.verifyResultStr ++ " Issuer=" ++ dn.issuer ++ " Subject=" ++ dn.subject))
    | none => .throws (.verificationError c.verifyResultStr)
  else if !c.peerCertPresented then
    if s.type = .server ∧ s.clientAuth = .require then
      .throws (.verificationError "no certificate presented by peer")
    else
      .ok none
  else if c.hasDnCallback then
    match c.lastCertDn with
    | some dn => .ok (some (s.type, dn.subject, dn.issuer))
    | none => .throws (.runtimeError "assertion failed: dn.has_value()")
  else
    .ok none

/-- Background action started by `session::close`: `shutdown()` wrapped in
`with_timeout(now + seconds, ...)`. -/
inductive CloseAction where
  | startShutdownWithTimeout (seconds : Nat)
deriving DecidableEq, Repr

/-- Shallow embedding of `session::close` (ossl.cc lines 1323-1344).
With `std::exchange(_shutdown, true)` the body runs only when `_shutdown`
was false; it starts the shutdown sequence in the background wrapped in a
10-second deadline, after which the session is forcibly closed. -/
def close (s : Session) : Session × Option CloseAction :=
  if s.shutdown then (s, none)
  else ({ s with shutdown := true }, some (.startShutdownWithTimeout 10))

/-- Repeated `close` calls, collecting every background action started. -/
def close_loop : Nat → Session → Session × List CloseAction
  | 0, s => (s, [])
  | n + 1, s =>
    let (s', a) := close s
    let (sEnd, rest) := close_loop n s'
    (sEnd, a.toList ++ rest)

/-- Abstract handle for a parsed X.509 certificate.  PEM/DER decoding is
done by OpenSSL outside this repository, so a certificate blob is
modelled by its parse outcome (`Option Cert`). -/
structure Cert where
  certId : Nat
deriving DecidableEq, Repr

/-- Abstract handle for a parsed private key, analogous to `Cert`. -/
structure PrivKey where
  keyId : Nat
deriving DecidableEq, Repr

/-- The `certificate_credentials::impl` field the key/cert setter writes:
`_cert_and_key` (a `certkey_pair`). -/
structure CredState where
  certAndKey : Option (Cert × PrivKey)
deriving DecidableEq, Repr

/-- Shallow embedding of `certificate_credentials::impl::set_x509_key`
(ossl.cc lines 352-373).  The certificate is parsed first
(`parse_x509_cert` throws on failure), then the private key; then
`X509_check_private_key` (passed in abstractly as `check`, since it is an
OpenSSL routine) must accept the pair; only then is `_cert_and_key`
assigned.  Every failure throws an `ossl_error` and leaves the stored pair
untouched. -/
def set_x509_key (check : Cert → PrivKey → Bool)
    (certParse : Option Cert) (keyParse : Option PrivKey)
    (st : CredState) : CredState × Option ErrorKind :=
  match certParse with
  | none => (st, some (.osslError "Failed to parse x509 certificate"))
  | some cert =>
    match keyParse with
    | none => (st, some (.osslError "Error attempting to parse private key"))
    | some key =>
      if check cert key then
        ({ st with certAndKey := some (cert, key) }, none)
      else
        (st, some (.osslError "Failed to verify cert/key pair"))

/-- A `net::packet`: a list of fragments, each a list of bytes. -/
abbrev Packet := List (List Byte)

/-- Total byte length of a packet (`packet::len`). -/
def packetLen (p : Packet) : Nat := (p.map List.length).sum

/-- Number of fragments of a packet (`packet::nr_frags`). -/
def nr_frags (p : Packet) : Nat := p.length

/-- Coalescing of a packet into a single contiguous fragment
(`packet::linearize`). -/
def linearize (p : Packet) : Packet := [p.flatten]

/-- One TLS record of plaintext (`openssl_max_record_size` in
`session::put`): 16 KiB. -/
def openssl_max_record_size : Nat := 16 * 1024

/-- Coalescing step at the head of `session::put` (ossl.cc lines 865-867):
a packet with more than one fragment whose total length is at most one
record is linearized; any other packet is left as is. -/
def put_coalesce (p : Packet) : Packet :=
  if 1 < nr_frags p ∧ packetLen p ≤ openssl_max_record_size then linearize p
  else p

/-- Status reported by `SSL_get_error` after a failed engine call. -/
inductive SslStatus where
  | sslErrorNone
  | sslErrorZeroReturn
  | sslErrorWantRead
  | sslErrorWantWrite
  | sslErrorSyscall (errno : Nat)
  | sslErrorSsl (reason : Nat)
  | sslErrorOther
deriving DecidableEq, Repr

/-- OpenSSL reason code `SSL_R_UNEXPECTED_EOF_WHILE_READING`. -/
def SSL_R_UNEXPECTED_EOF_WHILE_READING : Nat := 294

/-- Result of one iteration of the `do_put` write loop:
`stop_iteration::yes`, `stop_iteration::no`, or a thrown exception. -/
inductive PutIterResult where
  | stopIter
  | nextIter
  | throws (e : ErrorKind)
deriving DecidableEq, Repr

/-- Shallow embedding of `session::handle_do_put_ssl_err` (ossl.cc lines
737-790), which dispatches on the `SSL_get_error` status of a failed
`SSL_write_ex`.  It returns the updated session, the updated
`renegotitate` flag and the loop result.  `SSL_ERROR_ZERO_RETURN` (the
engine's clean end-of-stream) sets `_eof` and stops the iteration without
recording an error; `SSL_ERROR_WANT_READ`/`WANT_WRITE` request
renegotiation; the error cases record a sticky `_error` and throw it. -/
def handle_do_put_ssl_err (ssl_err : SslStatus) (renegotiate : Bool)
    (s : Session) : Session × Bool × PutIterResult :=
  match ssl_err with
  | .sslErrorZeroReturn => ({ s with eof := true }, renegotiate, .stopIter)
  | .sslErrorNone => (s, renegotiate, .nextIter)
  | .sslErrorWantRead => (s, true, .stopIter)
  | .sslErrorWantWrite => (s, true, .stopIter)
  | .sslErrorSyscall errno =>
    let e : ErrorKind := .systemError errno
    ({ s with error := some e }, renegotiate, .throws e)
  | .sslErrorSsl reason =>
    if reason = SSL_R_UNEXPECTED_EOF_WHILE_READING then
      ({ s with eof := true }, renegotiate, .stopIter)
    else
      let e : ErrorKind := .osslError "Error occurred during SSL write"
      ({ s with error := some e }, renegotiate, .throws e)
  | .sslErrorOther =>
    let e : ErrorKind := .runtimeError "Unknown error encountered during SSL write"
    ({ s with error := some e }, renegotiate, .throws e)

/-- The two memory BIOs owned by the session: `_in_bio` holds ciphertext
fed from the peer (read by the engine) and `_out_bio` holds ciphertext the
engine produced (drained by `perform_push`). -/
structure Bios where
  inBio : List Byte
  outBio : List Byte
deriving DecidableEq, Repr

/-- Concrete I/O and engine-queue actions, in the order the session
performs them: `pushOut bs` is `perform_push` handing `bs` to
`_out.put`, `awaitOutput` is `wait_for_output`, `pullIn` is `_in.get()`
inside `wait_for_input`, and `feedIn bs` is the `BIO_write` loop feeding
`bs` into `_in_bio`. -/
inductive IOAct where
  | pushOut (bs : List Byte)
  | awaitOutput
  | pullIn
  | feedIn (bs : List Byte)
deriving DecidableEq, Repr

/-- Shallow embedding of `session::perform_push` (ossl.cc lines 679-712):
drain everything in `_out_bio` and, when non-empty, hand it to
`_out.put`. -/
def perform_push (b : Bios) : Bios × List IOAct :=
  if b.outBio.isEmpty then (b, [])
  else ({ b with outBio := [] }, [.pushOut b.outBio])

/-- Shallow embedding of `session::maybe_perform_push_with_wait` (ossl.cc
lines 720-735): when `BIO_ctrl_pending(_out_bio)` is positive, run
`perform_push` and then await `wait_for_output`, reporting that data was
sent; otherwise do nothing and report false. -/
def maybe_perform_push_with_wait (b : Bios) : Bios × List IOAct × Bool :=
  if b.outBio.isEmpty then (b, [], false)
  else
    let (b', acts) := perform_push b
    (b', acts ++ [.awaitOutput], true)

/-- Receiver-side transport state: `_input` (ciphertext pulled from the
transport but not yet fed to the engine) and the chunks the transport will
still deliver; delivering past the end of `incoming` models the transport
returning an empty buffer, i.e. EOF. -/
structure PullState where
  input : List Byte
  incoming : List (List Byte)
deriving DecidableEq, Repr

/-- Shallow embedding of `session::perform_pull` (ossl.cc lines
1589-1616) including `wait_for_input` (lines 1002-1020): when `_input` is
empty, pull the next chunk from the transport (an exhausted transport
yields an empty buffer and sets `_eof`); then, if at EOF or the input is
empty, set `_eof`, else feed the whole input into `_in_bio` via
`BIO_write`. -/
def perform_pull (st : PullState) (b : Bios) (s : Session) :
    PullState × Bios × Session × List IOAct :=
  let pulled :=
    if st.input.isEmpty then
      match st.incoming with
      | [] => (({ st with input := ([] : List Byte) }, { s with eof := true }), [IOAct.pullIn])
      | c :: cs =>
        ((PullState.mk c cs, { s with eof := s.eof || c.isEmpty }), [IOAct.pullIn])
    else ((st, s), [])
  let st1 := pulled.1.1
  let s1 := pulled.1.2
  let acts1 := pulled.2
  if s1.eof || st1.input.isEmpty then
    (st1, b, { s1 with eof := true }, acts1)
  else
    ({ st1 with input := [] }, { b with inBio := b.inBio ++ st1.input }, s1,
      acts1 ++ [IOAct.feedIn st1.input])

/-- The transient-status branch of `session::do_handshake` (ossl.cc lines
915-929): on `SSL_ERROR_WANT_WRITE` or `SSL_ERROR_WANT_READ`, first
`maybe_perform_push_with_wait` (drain `_out_bio` and push it, awaiting
completion), then `perform_pull`, then retry the handshake. -/
def do_handshake_transient (st : PullState) (b : Bios) (s : Session) :
    PullState × Bios × Session × List IOAct :=
  let pushed := maybe_perform_push_with_wait b
  let pulled := perform_pull st pushed.1 s
  (pulled.1, pulled.2.1, pulled.2.2.1, pushed.2.1 ++ pulled.2.2.2)

/-- Transport/engine actions performed by one `session::do_handshake` step
for a given `SSL_get_error` status (ossl.cc lines 899-997): the two
transient statuses run the push-then-pull sequence and retry; the other
statuses perform no pull before any push (EOF, error and success handling
are modelled elsewhere). -/
def do_handshake_io (ssl_err : SslStatus) (st : PullState) (b : Bios)
    (s : Session) : PullState × Bios × Session × List IOAct :=
  match ssl_err with
  | .sslErrorWantRead => do_handshake_transient st b s
  | .sslErrorWantWrite => do_handshake_transient st b s
  | _ => (st, b, s, [])

/-- Modelled from the spec: the crypto engine binding (spec section 4.D).
OpenSSL's record layer is not part of this repository; per the spec the
engine is a faithful in-order codec between plaintext and ciphertext, so
encryption is abstracted to the identity and `SSL_write_ex` appends the
plaintext to `_out_bio`. -/
def SSL_write_model (b : Bios) (bs : List Byte) : Bios :=
  { b with outBio := b.outBio ++ bs }

/-- Modelled from the spec: the crypto engine binding (spec section 4.D),
read side.  `SSL_read_ex` drains everything available
(`BIO_ctrl_pending(_in_bio) + SSL_pending`) and returns it as decrypted
plaintext; with the identity codec that is the whole of `_in_bio`. -/
def SSL_read_model (b : Bios) : Bios × List Byte :=
  ({ b with inBio := [] }, b.inBio)

/-- Bytes handed to the transport sink by a list of actions. -/
def pushedBytes : List IOAct → List Byte
  | [] => []
  | .pushOut bs :: rest => bs ++ pushedBytes rest
  | _ :: rest => pushedBytes rest

/-- Removal of `n` bytes from the front of a packet
(`net::packet::trim_front`): fully consumed fragments are dropped, a
partially consumed first fragment keeps its tail. -/
def trim_front : Packet → Nat → Packet
  | p, 0 => p
  | [], _ => []
  | f :: fs, n =>
    if n < f.length then f.drop n :: fs
    else trim_front fs (n - f.length)

/-- Result of the `do_put` write loop on the success path: normal
completion with the final engine state, transport wire and remaining
packet; the undefined-behaviour point where `size - off` underflows
`size_t` (the loop's byte offset exceeds the current first fragment's
size, so `SSL_write_ex` is asked for a near-2^64-byte write past the
fragment); or fuel exhaustion (the source loop can run forever, e.g. on a
packet with an empty fragment before a non-empty one). -/
inductive DoPutResult where
  | ok (b : Bios) (wire : List Byte) (p : Packet)
  | ub (b : Bios) (wire : List Byte) (p : Packet) (off : Nat)
  | outOfFuel
deriving DecidableEq, Repr

/-- Shallow embedding of the write loop of `session::do_put` (ossl.cc
lines 803-841) on the success path (engine accepts every write, no
renegotiation).  The inner `repeat` lambda captures `off` by value and
mutates it, so `off` persists across `repeat` iterations and resets to 0
only when a new `do_until` body starts; on each successful write the
source advances twice: `off += bytes_written` *and*
`p.trim_front(bytes_written)`.  One call therefore does
`SSL_write_ex(frag.base + off, frag.size - off)` against the *current*
first fragment: the bytes written are `f.drop off`, and when
`off > f.size` the length operand underflows `size_t` (modelled as the
`ub` outcome).  `f.size = off` is `stop_iteration::yes`; the `do_until`
then re-enters with a fresh `off = 0` while the packet is non-empty.
Without `SSL_MODE_ENABLE_PARTIAL_WRITE` a successful `SSL_write_ex` over
memory BIOs writes everything requested, so `bytes_written = size - off`.
An emptied packet is modelled as exiting the loop (the source would read
the past-the-end fragment entry there before the `do_until` guard sees
`len() == 0`; exiting is the evident intent).  `fuel` bounds the number
of loop iterations. -/
def do_put_steps : Nat → Nat → Bios → List Byte → Packet → DoPutResult
  | 0, _, _, _, _ => .outOfFuel
  | _ + 1, _, b, wire, [] => .ok b wire []
  | fuel + 1, off, b, wire, f :: fs =>
    if f.length = off then
      if packetLen (f :: fs) = 0 then .ok b wire (f :: fs)
      else do_put_steps fuel 0 b wire (f :: fs)
    else if off > f.length then .ub b wire (f :: fs) off
    else
      let b1 := SSL_write_model b (f.drop off)
      let pushed := perform_push b1
      do_put_steps fuel f.length pushed.1 (wire ++ pushedBytes pushed.2)
        (trim_front (f :: fs) (f.length - off))

/-- Shallow embedding of `session::do_get` (ossl.cc lines 1026-1119) on
the success path: when nothing is pending in `_in_bio` (nor inside the
engine), `perform_pull` first; then, at EOF, return an empty buffer, else
`SSL_read_ex` whatever is available. -/
def do_get_model (st : PullState) (b : Bios) (s : Session) :
    PullState × Bios × Session × List Byte :=
  if b.inBio.isEmpty then
    let pulled := perform_pull st b s
    let st1 := pulled.1
    let b1 := pulled.2.1
    let s1 := pulled.2.2.1
    if s1.eof then (st1, b1, s1, [])
    else
      let r := SSL_read_model b1
      (st1, r.1, s1, r.2)
  else
    let r := SSL_read_model b
    (st, r.1, s, r.2)

/-- Driving `session::get` repeatedly on an established session and
collecting the returned buffers: each call runs the entry dispatch and,
when it proceeds, `do_get` under the read semaphore.  `fuel` bounds the
number of calls. -/
def get_reads (fuel : Nat) (st : PullState) (b : Bios) (s : Session) :
    List (List Byte) :=
  match fuel with
  | 0 => []
  | fuel + 1 =>
    match get_entry s with
    | .proceedsToEngine =>
      let r := do_get_model st b s
      r.2.2.2 :: get_reads fuel r.1 r.2.1 r.2.2.1
    | _ => []

/-! Helper lemmas shared by the claim theorems. -/

theorem close_loop_shutdown (n : Nat) (s : Session) (h : s.shutdown = true) :
    close_loop n s = (s, []) := by
  induction n with
  | zero => rfl
  | succ n ih => simp [close_loop, close, h, ih]

theorem get_reads_eof (fuel : Nat) (st : PullState) (b : Bios) (s : Session)
    (h : s.eof = true) : get_reads fuel st b s = [] := by
  cases fuel with
  | zero => rfl
  | succ n =>
    unfold get_reads
    cases herr : s.error with
    | some e => simp [get_entry, herr]
    | none => simp [get_entry, herr, h]

theorem get_reads_spec (chunks : List (List Byte)) :
    ∀ (fuel : Nat) (bout : List Byte) (s : Session),
      s.error = none → s.shutdown = false → s.eof = false →
      chunks.length < fuel → (∀ c ∈ chunks, c ≠ []) →
      (get_reads fuel (PullState.mk [] chunks) (Bios.mk [] bout) s).flatten
        = chunks.flatten := by
  induction chunks with
  | nil =>
    intro fuel bout s herr hsd heof hfuel _
    match fuel, hfuel with
    | fuel + 1, _ =>
      have hentry : get_entry s = .proceedsToEngine := by
        simp [get_entry, herr, hsd, heof]
      simp only [get_reads, hentry, do_get_model, perform_pull,
        SSL_read_model]
      simp [get_reads_eof]
  | cons c cs ih =>
    intro fuel bout s herr hsd heof hfuel hne
    match fuel, hfuel with
    | fuel + 1, hf =>
      have hcne : c ≠ [] := hne c (by simp)
      obtain ⟨hd, tl, rfl⟩ : ∃ hd tl, c = hd :: tl := by
        cases c with
        | nil => exact absurd rfl hcne
        | cons hd tl => exact ⟨hd, tl, rfl⟩
      have hentry : get_entry s = .proceedsToEngine := by
        simp [get_entry, herr, hsd, heof]
      have hrec := ih fuel bout { s with eof := false }
        (by simpa using herr) (by simpa using hsd) (by simp)
        (by simp at hf; omega) (fun d hd => hne d (by simp [hd]))
      simp [get_reads, hentry, do_get_model, perform_pull, SSL_read_model,
        heof, hrec]

theorem perform_pull_acts (st : PullState) (b : Bios) (s : Session) :
    ∀ a ∈ (perform_pull st b s).2.2.2,
      a = IOAct.pullIn ∨ ∃ bs, a = IOAct.feedIn bs := by
  intro a ha
  unfold perform_pull at ha
  rcases st with ⟨inp, inc⟩
  by_cases h1 : inp.isEmpty
  · cases inc with
    | nil =>
      simp [h1] at ha
      exact Or.inl ha
    | cons c cs =>
      by_cases h2 : c.isEmpty
      · simp [h1, h2] at ha
        exact Or.inl ha
      · by_cases h3 : s.eof
        · simp [h1, h2, h3] at ha
          exact Or.inl ha
        · simp [h1, h2, h3] at ha
          rcases ha with rfl | rfl
          · exact Or.inl rfl
          · exact Or.inr ⟨_, rfl⟩
  · by_cases h2 : s.eof
    · simp [h1, h2] at ha
    · simp [h1, h2] at ha
      exact Or.inr ⟨_, ha⟩

theorem do_handshake_transient_order (st : PullState) (b : Bios)
    (s : Session) :
    ∃ pushActs pullActs,
      (do_handshake_transient st b s).2.2.2 = pushActs ++ pullActs ∧
      (∀ a ∈ pushActs, a = IOAct.pushOut b.outBio ∨ a = IOAct.awaitOutput) ∧
      (∀ a ∈ pullActs, a = IOAct.pullIn ∨ ∃ bs, a = IOAct.feedIn bs) ∧
      (b.outBio ≠ [] →
        pushActs = [IOAct.pushOut b.outBio, IOAct.awaitOutput]) := by
  by_cases h : b.outBio.isEmpty
  · refine ⟨[], (perform_pull st b s).2.2.2, ?_, by simp, ?_, ?_⟩
    · simp [do_handshake_transient, maybe_perform_push_with_wait, h]
    · exact perform_pull_acts st b s
    · intro hne; exact absurd (List.isEmpty_iff.mp h) hne
  · refine ⟨[IOAct.pushOut b.outBio, IOAct.awaitOutput],
      (perform_pull st { b with outBio := [] } s).2.2.2, ?_, ?_, ?_, ?_⟩
    · simp [do_handshake_transient, maybe_perform_push_with_wait,
        perform_push, h]
    · intro a ha
      simp at ha
      rcases ha with rfl | rfl
      · exact Or.inl rfl
      · exact Or.inr rfl
    · exact perform_pull_acts st _ s
    · intro _; rfl

theorem do_put_bug_eval (A : List Byte) (hA : A.length = 16384) :
    do_put_steps 8 0 (Bios.mk [] []) [] (put_coalesce [A, [9]])
      = .ub (Bios.mk [] []) A [[9]] 16384 := by
  have hAne : A.isEmpty = false := by
    cases A with
    | nil => simp at hA
    | cons a as => rfl
  have hcoal : put_coalesce [A, [9]] = [A, [9]] := by
    have h : ¬(1 < nr_frags [A, [9]] ∧
        packetLen [A, [9]] ≤ openssl_max_record_size) := by
      simp [nr_frags, packetLen, openssl_max_record_size, hA]
    simp [put_coalesce, h]
  rw [hcoal]
  simp [do_put_steps, SSL_write_model, perform_push, pushedBytes,
    trim_front, packetLen, hA, hAne]

/-! Claim theorems. -/

/-- Claim C1 (counterexample): on a session whose `last_error` is set,
`flush` does not fail with the stored error kind — it goes straight to the
transport flush, so the claim that every public call fails with the stored
kind is false at this input. -/
theorem c1_counterexample :
    flush_entry
        (Session.mk .client .none (some (.systemError 5)) false false true)
      = .flushesTransport ∧
    flush_entry
        (Session.mk .client .none (some (.systemError 5)) false false true)
      ≠ .fails (.systemError 5) := by
  exact ⟨rfl, by simp [flush_entry]⟩

/-- Claim C1 (amended): once `last_error` is set, every subsequent `read`,
`write`, `distinguished_name` and `subject_alt_names` call on the session
fails with an error whose kind equals the stored kind, without touching
the engine; `flush` is the exception — it performs the transport-sink
flush without consulting `last_error`. -/
theorem c1_sticky_error_amended (s : Session) (k : ErrorKind)
    (h : s.error = some k) :
    get_entry s = .fails k ∧ put_entry s = .fails k ∧
    get_distinguished_name_entry s = .fails k ∧
    get_alt_name_information_entry s = .fails k := by
  simp [get_entry, put_entry, get_distinguished_name_entry,
    get_alt_name_information_entry, h]

/-- Claim C1 (witness): the amended theorem at a concrete errored
session. -/
theorem c1_witness :
    get_entry (Session.mk .server .require (some (.systemError 5)) true true true)
      = .fails (.systemError 5) ∧
    put_entry (Session.mk .server .require (some (.systemError 5)) true true true)
      = .fails (.systemError 5) ∧
    get_distinguished_name_entry
        (Session.mk .server .require (some (.systemError 5)) true true true)
      = .fails (.systemError 5) ∧
    get_alt_name_information_entry
        (Session.mk .server .require (some (.systemError 5)) true true true)
      = .fails (.systemError 5) :=
  c1_sticky_error_amended _ _ rfl

/-- Claim C4: on a session with no stored error on which
`shutdown_requested` or `eof_seen` holds, every `read` returns an empty
buffer immediately, and arbitrarily many successive reads each return
empty, performing no transport pull and leaving the session unchanged. -/
theorem c4_eof_reads_empty (s : Session) (n : Nat) (herr : s.error = none)
    (hfast : (s.shutdown || s.eof) = true) :
    get_loop n s
      = some (List.replicate n (CallOutcome.returnsEmpty, ([] : List IOEvent)), s) := by
  induction n with
  | zero => rfl
  | succ n ih =>
    have hentry : get_entry s = .returnsEmpty := by
      simp [get_entry, herr, hfast]
    simp [get_loop, get_step, hentry, ih, List.replicate]

/-- Claim C4 (witness): three successive reads on a concrete session that
has seen EOF. -/
theorem c4_witness :
    get_loop 3 (Session.mk .client .none none true false true)
      = some (List.replicate 3 (CallOutcome.returnsEmpty, ([] : List IOEvent)),
          Session.mk .client .none none true false true) :=
  c4_eof_reads_empty _ 3 rfl rfl

/-- Claim C10: on a session on which `close()` has been called
(`_shutdown` set) and whose `last_error` is unset, `distinguished_name`
and `subject_alt_names` do not return a value: each fails with an
ENOTCONN system error. -/
theorem c10_dn_after_close (s : Session) (herr : s.error = none)
    (hsd : s.shutdown = true) :
    get_distinguished_name_entry s = .fails (.systemError ENOTCONN) ∧
    get_alt_name_information_entry s = .fails (.systemError ENOTCONN) := by
  simp [get_distinguished_name_entry, get_alt_name_information_entry,
    herr, hsd]

/-- Claim C10 (witness): the theorem at a concrete closed session. -/
theorem c10_witness :
    get_distinguished_name_entry (Session.mk .client .none none false true true)
      = .fails (.systemError ENOTCONN) ∧
    get_alt_name_information_entry (Session.mk .client .none none false true true)
      = .fails (.systemError ENOTCONN) :=
  c10_dn_after_close _ rfl rfl

/-- Claim C8: `close()` is idempotent — only the first call starts the
shutdown sequence (every later call is a no-op), and the single shutdown
it starts is wrapped in a 10-second deadline. -/
theorem c8_close_idempotent (s : Session) (n : Nat) :
    (s.shutdown = false →
      close s = ({ s with shutdown := true },
        some (.startShutdownWithTimeout 10)) ∧
      close_loop (n + 1) s = ({ s with shutdown := true },
        [CloseAction.startShutdownWithTimeout 10])) ∧
    (s.shutdown = true → close s = (s, none) ∧ close_loop n s = (s, [])) := by
  constructor
  · intro h
    have h1 : close s = ({ s with shutdown := true },
        some (.startShutdownWithTimeout 10)) := by
      simp [close, h]
    refine ⟨h1, ?_⟩
    simp [close_loop, h1, close_loop_shutdown]
  · intro h
    exact ⟨by simp [close, h], close_loop_shutdown n s h⟩

/-- Claim C8 (witness): four `close` calls on a fresh concrete session
start exactly one shutdown, with a 10-second deadline; a `close` on an
already-closed session is a no-op. -/
theorem c8_witness :
    close_loop 4 (Session.mk .client .none none false false true)
      = (Session.mk .client .none none false true true,
        [CloseAction.startShutdownWithTimeout 10]) ∧
    close (Session.mk .client .none none false true true)
      = (Session.mk .client .none none false true true, none) :=
  ⟨((c8_close_idempotent (Session.mk .client .none none false false true) 3).1 rfl).2,
    ((c8_close_idempotent (Session.mk .client .none none false true true) 0).2 rfl).1⟩

/-- Claim C7: when `SSL_get_verify_result` is OK but no peer certificate
was presented, `verify` throws
`verification_error("no certificate presented by peer")` exactly when the
session is a server with client-auth REQUIRE, and returns normally
(without invoking the DN callback) for every client session and every
server session with client-auth NONE or REQUEST. -/
theorem c7_verify_no_peer_cert (s : Session) (c : VerifyCtx)
    (hres : c.verifyResult = X509_V_OK) (hcert : c.peerCertPresented = false) :
    (verify s c
        = .throws (.verificationError "no certificate presented by peer")
      ↔ (s.type = .server ∧ s.clientAuth = .require)) ∧
    (¬(s.type = .server ∧ s.clientAuth = .require) →
      verify s c = .ok none) := by
  by_cases hc : s.type = .server ∧ s.clientAuth = .require
  · constructor
    · simp [verify, hres, hcert, hc]
    · intro h; exact absurd hc h
  · have hok : verify s c = .ok none := by
      simp [verify, hres, hcert, hc]
    constructor
    · rw [hok]
      constructor
      · intro h; exact absurd h (by simp)
      · intro h; exact absurd h hc
    · intro _; exact hok

/-- Claim C7 (witness): the theorem at a concrete server-with-REQUIRE
session (failure) and a concrete client session (success), with an OK
verification result and no peer certificate. -/
theorem c7_witness :
    verify (Session.mk .server .require none false false true)
        (VerifyCtx.mk 0 "ok" false none false)
      = .throws (.verificationError "no certificate presented by peer") ∧
    verify (Session.mk .client .require none false false true)
        (VerifyCtx.mk 0 "ok" false none false)
      = .ok none :=
  ⟨(c7_verify_no_peer_cert _ _ rfl rfl).1.mpr ⟨rfl, rfl⟩,
    (c7_verify_no_peer_cert _ _ rfl rfl).2 (by simp)⟩

/-- Claim C9: `set_x509_key` stores the certificate/key pair exactly when
both inputs parse and the private key matches the certificate; on a parse
failure of either input or a key mismatch it throws an `ossl_error`
(credential error) and leaves the stored pair untouched. -/
theorem c9_set_key_and_cert (check : Cert → PrivKey → Bool)
    (cp : Option Cert) (kp : Option PrivKey) (st : CredState) :
    (∀ c k, cp = some c → kp = some k → check c k = true →
      set_x509_key check cp kp st
        = ({ st with certAndKey := some (c, k) }, none)) ∧
    ((cp = none ∨ kp = none ∨
        ∃ c k, cp = some c ∧ kp = some k ∧ check c k = false) →
      (set_x509_key check cp kp st).1 = st ∧
      ∃ m, (set_x509_key check cp kp st).2 = some (.osslError m)) := by
  constructor
  · intro c k hc hk hchk
    subst hc; subst hk
    simp [set_x509_key, hchk]
  · intro h
    rcases h with rfl | rfl | ⟨c, k, rfl, rfl, hchk⟩
    · exact ⟨rfl, _, rfl⟩
    · cases cp with
      | none => exact ⟨rfl, _, rfl⟩
      | some c => exact ⟨rfl, _, rfl⟩
    · simp [set_x509_key, hchk]

/-- Claim C9 (witness): the theorem at concrete inputs — a matching pair
is stored; a mismatched pair and an unparsable key each produce an
`ossl_error` and leave the store unchanged. -/
theorem c9_witness :
    set_x509_key (fun c k => c.certId == k.keyId)
        (some (Cert.mk 1)) (some (PrivKey.mk 1)) (CredState.mk none)
      = (CredState.mk (some (Cert.mk 1, PrivKey.mk 1)), none) ∧
    (set_x509_key (fun c k => c.certId == k.keyId)
        (some (Cert.mk 1)) (some (PrivKey.mk 2)) (CredState.mk none)).1
      = CredState.mk none ∧
    (∃ m, (set_x509_key (fun c k => c.certId == k.keyId)
        (some (Cert.mk 1)) (some (PrivKey.mk 2)) (CredState.mk none)).2
      = some (.osslError m)) ∧
    (set_x509_key (fun c k => c.certId == k.keyId)
        (some (Cert.mk 1)) none (CredState.mk none)).1
      = CredState.mk none :=
  ⟨(c9_set_key_and_cert _ _ _ _).1 _ _ rfl rfl rfl,
    ((c9_set_key_and_cert _ _ _ _).2
      (Or.inr (Or.inr ⟨_, _, rfl, rfl, rfl⟩))).1,
    ((c9_set_key_and_cert _ _ _ _).2
      (Or.inr (Or.inr ⟨_, _, rfl, rfl, rfl⟩))).2,
    ((c9_set_key_and_cert _ _ _ _).2 (Or.inr (Or.inl rfl))).1⟩

/-- Claim C3: a packet with more than one fragment and total length at
most one TLS record (16384 bytes) is coalesced by `put` into a single
contiguous fragment carrying the same bytes; a single-fragment packet or
one larger than a record is left untouched. -/
theorem c3_put_coalesce (p : Packet) :
    (1 < nr_frags p → packetLen p ≤ openssl_max_record_size →
      put_coalesce p = [p.flatten] ∧ nr_frags (put_coalesce p) = 1 ∧
      (put_coalesce p).flatten = p.flatten) ∧
    (nr_frags p ≤ 1 ∨ openssl_max_record_size < packetLen p →
      put_coalesce p = p) := by
  constructor
  · intro h1 h2
    have hc : put_coalesce p = [p.flatten] := by
      simp [put_coalesce, linearize, h1, h2]
    exact ⟨hc, by simp [hc, nr_frags], by simp [hc]⟩
  · intro h
    rcases h with h | h
    · have : ¬(1 < nr_frags p ∧ packetLen p ≤ openssl_max_record_size) := by
        intro hx; omega
      simp [put_coalesce, this]
    · have : ¬(1 < nr_frags p ∧ packetLen p ≤ openssl_max_record_size) := by
        intro hx; omega
      simp [put_coalesce, this]

/-- Claim C3 (witness): the scattered 5-byte message of the spec scenario
is coalesced into one fragment; a single-fragment packet is not. -/
theorem c3_witness :
    put_coalesce [[104, 101], [108, 108], [111]]
      = [[104, 101, 108, 108, 111]] ∧
    put_coalesce [[104, 101, 108, 108, 111]]
      = [[104, 101, 108, 108, 111]] :=
  ⟨((c3_put_coalesce _).1 (by decide) (by decide)).1,
    (c3_put_coalesce _).2 (Or.inl (by decide))⟩

/-- Claim C5 (counterexample): after the engine reported clean
end-of-stream during a write (`_eof` set, no shutdown requested, no
stored error), a further `write` does not fail with a pipe-closed (EPIPE)
error — it proceeds to the handshake / `do_put` path. -/
theorem c5_counterexample :
    put_entry (Session.mk .client .none none true false true)
      = .proceedsToEngine ∧
    put_entry (Session.mk .client .none none true false true)
      ≠ .fails (.systemError EPIPE) := by
  exact ⟨rfl, by simp [put_entry]⟩

/-- Claim C5 (amended): when the engine reports clean end-of-stream
(`SSL_ERROR_ZERO_RETURN`) during a write, the session sets `eof_seen` and
the write loop iteration stops without recording an error; writes fail
with a pipe-closed (EPIPE) error once `shutdown_requested` has been set by
`close()` — `eof_seen` alone does not make a further write fail with
pipe-closed. -/
theorem c5_clean_eof_amended :
    (∀ (s : Session) (r : Bool),
      handle_do_put_ssl_err .sslErrorZeroReturn r s
        = ({ s with eof := true }, r, .stopIter)) ∧
    (∀ s : Session, s.error = none → s.shutdown = true →
      put_entry s = .fails (.systemError EPIPE)) := by
  constructor
  · intro s r; rfl
  · intro s herr hsd
    simp [put_entry, herr, hsd]

/-- Claim C5 (witness): the amended theorem at a concrete session — clean
EOF during a write sets `eof_seen` and stops the iteration, and a write
after `close()` fails with EPIPE. -/
theorem c5_witness :
    handle_do_put_ssl_err .sslErrorZeroReturn false
        (Session.mk .client .none none false false true)
      = (Session.mk .client .none none true false true, false, .stopIter) ∧
    put_entry (Session.mk .client .none none true true true)
      = .fails (.systemError EPIPE) :=
  ⟨c5_clean_eof_amended.1 _ false,
    c5_clean_eof_amended.2 _ rfl rfl⟩

/-- Claim C6: whenever the handshake loop receives a transient status
(`SSL_ERROR_WANT_READ` or `SSL_ERROR_WANT_WRITE`), its action trace is a
push phase followed by a pull phase: it first drains the outbound
ciphertext and pushes it to the transport, awaiting completion, and only
then pulls inbound ciphertext and feeds it to the engine — every push
action precedes every pull action, for both transient statuses. -/
theorem c6_push_before_pull (e : SslStatus) (st : PullState) (b : Bios)
    (s : Session) (he : e = .sslErrorWantRead ∨ e = .sslErrorWantWrite) :
    ∃ pushActs pullActs,
      (do_handshake_io e st b s).2.2.2 = pushActs ++ pullActs ∧
      (∀ a ∈ pushActs, a = IOAct.pushOut b.outBio ∨ a = IOAct.awaitOutput) ∧
      (∀ a ∈ pullActs, a = IOAct.pullIn ∨ ∃ bs, a = IOAct.feedIn bs) ∧
      (b.outBio ≠ [] →
        pushActs = [IOAct.pushOut b.outBio, IOAct.awaitOutput]) := by
  rcases he with rfl | rfl
  · exact do_handshake_transient_order st b s
  · exact do_handshake_transient_order st b s

/-- Claim C6 (witness): the theorem at a concrete state with pending
outbound ciphertext and a pending inbound chunk, for the `WANT_READ`
status. -/
theorem c6_witness :
    ∃ pushActs pullActs,
      (do_handshake_io .sslErrorWantRead (PullState.mk [] [[7]])
          (Bios.mk [] [1, 2]) (Session.mk .client .none none false false false)).2.2.2
        = pushActs ++ pullActs ∧
      (∀ a ∈ pushActs,
        a = IOAct.pushOut (Bios.mk ([] : List Byte) [1, 2]).outBio ∨
        a = IOAct.awaitOutput) ∧
      (∀ a ∈ pullActs, a = IOAct.pullIn ∨ ∃ bs, a = IOAct.feedIn bs) ∧
      ((Bios.mk ([] : List Byte) [1, 2]).outBio ≠ [] →
        pushActs = [IOAct.pushOut (Bios.mk ([] : List Byte) [1, 2]).outBio,
          IOAct.awaitOutput]) :=
  c6_push_before_pull _ _ _ _ (Or.inl rfl)

/-- Claim C2: the round-trip property fails on the code.  The write loop
of `session::do_put` advances twice per successful write — `off` (kept
across `repeat` iterations) and `p.trim_front(bytes_written)` — so a
multi-fragment packet whose total length exceeds one record (and which
therefore escapes the linearization in `put`) has its later fragments
written at `base + off`.  Evaluated at the two-fragment packet of a
16384-byte fragment followed by the single byte 9 (length 16385, so
`put_coalesce` leaves it untouched): the first fragment is written and
pushed, leaving `off = 16384`; the next iteration then computes
`SSL_write_ex(frag2.base + 16384, 1 - 16384)`, a `size_t` underflow, with
only the first fragment's bytes on the wire — the second fragment's byte
is never delivered, so the peer's reads cannot concatenate to the written
sequence.  The claim (the spec's round-trip invariant) states the intended
behaviour; the double advance in the code is the bug. -/
theorem c2_write_loop_bug :
    do_put_steps 8 0 (Bios.mk [] []) []
        (put_coalesce [List.replicate 16384 0, [9]])
      = .ub (Bios.mk [] []) (List.replicate 16384 0) [[9]] 16384 :=
  do_put_bug_eval (List.replicate 16384 0) (List.length_replicate _ _)

end Ossl
